/-
Verification of the diir-background-service moderation handlers.

The repository has two storage-triggered handlers:
  * `processImages`   (src/functions/src/imageService.ts) — image moderation;
  * `transcodeVideo`  (src/functions/src/index.ts, videoService part) —
    video moderation plus remote transcoding.

We shallowly embed both handlers as pure Lean functions.  External
collaborators (the safe-search classifier, the video-intelligence
classifier, the storage bucket, the clock, URL signing) are inputs; every
outward call the handler makes is recorded in an effect trace, and the
storage bucket / local filesystem are modelled as association lists that
the interpreter threads through the run.  JavaScript optional values
(`undefined`/`null`) are `Option`; a thrown error is `Except.error`
(the handlers catch, log and re-throw, so a throw is the invocation's
result).
-/
import Mathlib

namespace DiirService

/-! ## Data model -/

/-- Bytes of a stored object, abstracted to an identifier. -/
abbrev Bytes := Nat

/-- Metadata of the finalized storage object that triggered the event
(`obj` in both handlers): bucket name, object path (`obj.name`, possibly
absent) and declared content type (possibly absent). -/
structure StorageObjectMeta where
  bucket : String
  name : Option String
  contentType : Option String
  deriving DecidableEq, Repr

/-- `result.safeSearchAnnotation` of the Vision response (field renamed to
`safeSearchAnn` here): per-category likelihoods, delivered by the Node
Vision client as enum-name strings such as "POSSIBLE". -/
structure SafeSearchAnn where
  adult : Option String
  violence : Option String
  deriving DecidableEq, Repr

/-- The Vision `safeSearchDetection` response object (`result`). -/
structure VisionResult where
  safeSearchAnn : Option SafeSearchAnn
  deriving DecidableEq, Repr

/-- One frame of the explicit-content video annotation
(`frame.pornographyLikelihood`, a protobuf enum number 0..5, possibly
absent). -/
structure ExplicitFrame where
  pornographyLikelihood : Option Nat
  deriving DecidableEq, Repr

/-- `explicitAnnotation` of one video annotation result (field renamed to
`explicitAnn` here): the list of analysed frames, possibly absent. -/
structure ExplicitAnn where
  frames : Option (List ExplicitFrame)
  deriving DecidableEq, Repr

/-- One element of `operationResult.annotationResults`. -/
structure AnnResult where
  explicitAnn : Option ExplicitAnn
  deriving DecidableEq, Repr

/-- The completed video-intelligence operation result
(`operationResult`); `annResults` embeds `annotationResults`, possibly
absent. -/
structure VideoOperationResult where
  annResults : Option (List AnnResult)
  deriving DecidableEq, Repr

/-- JSON body `meta` object of the Cloudflare stream/copy request. -/
structure PostMeta where
  name : String
  path : String
  contentURI : String
  contentRef : String
  deriving DecidableEq, Repr

/-- JSON body of the Cloudflare stream/copy request. -/
structure PostBody where
  url : String
  meta : PostMeta
  deriving DecidableEq, Repr

/-- Every outward call a handler can make, recorded in order. -/
inductive Effect where
  /-- Vision safeSearchDetection on a gs:// URI. -/
  | classifyImage : String → Effect
  /-- Video-intelligence annotateVideo (explicit content) on a gs:// URI. -/
  | classifyVideo : String → Effect
  /-- `rawBucket.file(path).delete()`. -/
  | deleteObject : String → Effect
  /-- `mkdirp(dir)` for the local temp directory. -/
  | mkdir : String → Effect
  /-- `rawBucket.file(src).download({destination})`: bucket path, local destination. -/
  | downloadObject : String → String → Effect
  /-- `rawBucket.upload(src, {destination})`: local source file, bucket destination path. -/
  | uploadObject : String → String → Effect
  /-- `fs.unlink(path)` on the local temp file. -/
  | unlinkFile : String → Effect
  /-- `file.getSignedUrl({action, expires})`: path, action, expiry (ms epoch). -/
  | getSignedUrl : String → String → Nat → Effect
  /-- `axios POST`: url, Authorization header value, JSON body. -/
  | httpPost : String → String → PostBody → Effect
  deriving DecidableEq, Repr

/-- Result of one handler invocation: the ordered effect trace, the final
bucket contents, the final local temp files, and the platform-visible
result (`Except.ok ()` models `return null`, `Except.error` a re-thrown
exception). -/
structure Outcome where
  trace : List Effect
  bucket : List (String × Bytes)
  localFs : List (String × Bytes)
  result : Except String Unit
  deriving Repr

/-! ## Association-list storage -/

/-- Look a key up in an association list (first match wins). -/
def lookupA (l : List (String × Bytes)) (k : String) : Option Bytes :=
  match l with
  | [] => none
  | (k2, v) :: rest => if k2 == k then some v else lookupA rest k

/-- Remove every binding of a key. -/
def delA : List (String × Bytes) → String → List (String × Bytes)
  | [], _ => []
  | (k2, v) :: rest, k =>
    if k2 == k then delA rest k else (k2, v) :: delA rest k

/-- Overwrite the binding of a key. -/
def setA (l : List (String × Bytes)) (k : String) (v : Bytes) :
    List (String × Bytes) :=
  (k, v) :: delA l k

/-! ## String and Node path helpers used by the handlers

Implemented over the character lists of the strings so that every
operation evaluates by kernel reduction on concrete inputs. -/

/-- Whether the second list is an initial segment of the first. -/
def charsStart : List Char → List Char → Bool
  | _, [] => true
  | [], _ :: _ => false
  | c :: cs, d :: ds => c == d && charsStart cs ds

/-- `s.startsWith(pre)`. -/
def strStartsWith (s pre : String) : Bool :=
  charsStart s.data pre.data

/-- `s.endsWith(suf)`. -/
def strEndsWith (s suf : String) : Bool :=
  charsStart s.data.reverse suf.data.reverse

/-- Split a character list on a separator (like `String.prototype.split`). -/
def splitChars (sep : Char) : List Char → List (List Char)
  | [] => [[]]
  | c :: cs =>
    match splitChars sep cs with
    | [] => if c == sep then [[], []] else [[c]]
    | r :: rs => if c == sep then [] :: r :: rs else (c :: r) :: rs

/-- Join character lists with a separator. -/
def joinChars (sep : Char) : List (List Char) → List Char
  | [] => []
  | [x] => x
  | x :: xs => x ++ sep :: joinChars sep xs

/-- `os.tmpdir()`. -/
def tmpdir : String := "/tmp"

/-- `path.join` for the simple shapes the handlers build. -/
def joinPath (a b : String) : String := a ++ "/" ++ b

/-- `path.dirname`: everything before the last separator. -/
def jsDirname (p : String) : String :=
  let parts := splitChars (Char.ofNat 47) p.data
  if parts.length ≤ 1 then "." else String.mk (joinChars (Char.ofNat 47) parts.dropLast)

/-- `path.basename` without a suffix argument: the last path component. -/
def jsBasenameRaw (p : String) : String :=
  String.mk ((splitChars (Char.ofNat 47) p.data).getLast?.getD p.data)

/-- `path.extname`: the trailing extension of the last component. -/
def jsExtname (p : String) : String :=
  let base := (jsBasenameRaw p).data
  let parts := splitChars (Char.ofNat 46) base
  if parts.length ≤ 1 then ""
  else if base.head? == some (Char.ofNat 46) && parts.length == 2 then ""
  else String.mk (Char.ofNat 46 :: (parts.getLast?.getD []))

/-- `path.basename(p, ext)`: last component, with the suffix `ext`
stripped when it is a proper suffix. -/
def jsBasename (p ext : String) : String :=
  let base := (jsBasenameRaw p).data
  if ext != "" && charsStart base.reverse ext.data.reverse
      && ext.data.length < base.length then
    String.mk (base.take (base.length - ext.data.length))
  else String.mk base

/-! ## Classification (the pure cores of the two detector helpers) -/

/-- The human-readable likelihood table of videoService
(`const likelihoods = [...]`). -/
def likelihoods : List String :=
  ["UNKNOWN", "VERY_UNLIKELY", "UNLIKELY", "POSSIBLE", "LIKELY", "VERY_LIKELY"]

/-- JavaScript truthiness of the numeric likelihood
(`!!frame.pornographyLikelihood`): false for absent and for 0. -/
def jsTruthyNum (x : Option Nat) : Bool :=
  match x with
  | none => false
  | some n => n != 0

/-- The per-frame test of the videoService loop body:
`!!l && likelihoods[l] === "POSSIBLE" || ... "LIKELY" || ... "VERY_LIKELY"`
(out-of-range indexing yields undefined, which never equals a string). -/
def frameIsAdult (frame : ExplicitFrame) : Bool :=
  (jsTruthyNum frame.pornographyLikelihood &&
    likelihoods.get? (frame.pornographyLikelihood.getD 0) == some "POSSIBLE") ||
  (jsTruthyNum frame.pornographyLikelihood &&
    likelihoods.get? (frame.pornographyLikelihood.getD 0) == some "LIKELY") ||
  (jsTruthyNum frame.pornographyLikelihood &&
    likelihoods.get? (frame.pornographyLikelihood.getD 0) == some "VERY_LIKELY")

/-- `videoSafeSearchDetection`, pure core (index.ts lines 151-183): given
the awaited operation result, compute the flag.  Note, exactly as in the
source: the `forEach` body ASSIGNS `isAdult` on every iteration, so with a
non-empty frame list the final value comes from the LAST frame alone; and
when `annotationResults` is a present-but-empty array, the member access
`explicitContentResults[0].explicitAnnotation` throws a TypeError. -/
def videoSafeSearchDetection (operationResult : VideoOperationResult) :
    Except String Bool :=
  let explicitContentResults := operationResult.annResults
  let isAdult : Bool := false
  match explicitContentResults with
  | none => Except.ok isAdult
  | some rs =>
    match rs with
    | [] => Except.error "TypeError: cannot read explicitAnn of undefined"
    | first :: _ =>
      match first.explicitAnn with
      | none => Except.ok isAdult
      | some results =>
        match results.frames with
        | none => Except.ok isAdult
        | some frames =>
          if frames.length > 0 then
            Except.ok (frames.foldl (fun _ frame => frameIsAdult frame) isAdult)
          else
            Except.ok isAdult

/-- `imageSafeSearchDetection`, pure core (imageService.ts lines 95-113):
`detections?.adult === "POSSIBLE" || ... || detections?.violence === ...`. -/
def imageSafeSearchDetection (result : VisionResult) : Bool :=
  let detections := result.safeSearchAnn
  let adultContent :=
    detections.bind (fun d => d.adult) == some "POSSIBLE" ||
    detections.bind (fun d => d.adult) == some "LIKELY" ||
    detections.bind (fun d => d.adult) == some "VERY_LIKELY"
  let violenceContent :=
    detections.bind (fun d => d.violence) == some "POSSIBLE" ||
    detections.bind (fun d => d.violence) == some "LIKELY" ||
    detections.bind (fun d => d.violence) == some "VERY_LIKELY"
  adultContent || violenceContent

/-! ## Handler embeddings

Both handlers run the identical flagged-branch block (imageService.ts
lines 54-84, index.ts lines 78-107), differing only in the placeholder
path; we embed that block once, parameterized by the placeholder path.
Storage semantics: `delete` on a missing object throws, `download` of a
missing bucket object throws, `upload` writes the local file's bytes
(here: exactly the bytes the preceding download wrote) to the
destination path, `unlink` removes the local file. -/

/-- `const REPLACEMENT_IMAGE_FILE_PATH = "prohibited.png"`. -/
def REPLACEMENT_IMAGE_FILE_PATH : String := "prohibited.png"

/-- `const REPLACEMENT_VIDEO_FILE_PATH = "annotate.mp4"`. -/
def REPLACEMENT_VIDEO_FILE_PATH : String := "annotate.mp4"

/-- The flagged branch shared by both handlers: delete the object, make
the temp dir, download the placeholder to the temp file, upload it back
to the object path, unlink the temp file.  `t0` is the trace accumulated
before the branch.  A failing step stops the run with that step last in
the trace and an error result (the handler catch block re-throws). -/
def replaceWithPlaceholder (bucket : List (String × Bytes))
    (fp replPath : String) (t0 : List Effect) : Outcome :=
  match lookupA bucket fp with
  | none =>
    -- `rawBucket.file(filePath).delete()` rejects: no such object.
    ⟨t0 ++ [Effect.deleteObject fp], bucket, [], Except.error "delete: no such object"⟩
  | some _ =>
    let bucket1 := delA bucket fp
    let tempFilePath := joinPath tmpdir fp
    let tempFileDir := jsDirname tempFilePath
    match lookupA bucket1 replPath with
    | none =>
      -- `replacementFile.download(...)` rejects: placeholder missing.
      ⟨t0 ++ [Effect.deleteObject fp, Effect.mkdir tempFileDir,
              Effect.downloadObject replPath tempFilePath],
       bucket1, [], Except.error "download: no such object"⟩
    | some pb =>
      -- download wrote `pb` to the temp file; upload sends those bytes to
      -- `fp`; unlink then removes the temp file.
      ⟨t0 ++ [Effect.deleteObject fp, Effect.mkdir tempFileDir,
              Effect.downloadObject replPath tempFilePath,
              Effect.uploadObject tempFilePath fp,
              Effect.unlinkFile tempFilePath],
       setA bucket1 fp pb,
       delA (setA [] tempFilePath pb) tempFilePath,
       Except.ok ()⟩

/-- Inputs of one `processImages` invocation: the trigger object, the
Vision response the classifier would return, and the bucket contents. -/
structure ImageWorld where
  obj : StorageObjectMeta
  visionResult : VisionResult
  bucketState : List (String × Bytes)

/-- An invocation that does nothing and returns null. -/
def noopOutcome (bucket : List (String × Bytes)) : Outcome :=
  ⟨[], bucket, [], Except.ok ()⟩

/-- `processImages` (imageService.ts lines 29-92).  Guard: `!filePath`
(absent or empty string) and `!contentType?.startsWith("image/")` both
return null without any outward call. -/
def processImagesRun (w : ImageWorld) : Outcome :=
  match w.obj.name with
  | none => noopOutcome w.bucketState
  | some filePath =>
    if filePath == "" then noopOutcome w.bucketState
    else
      match w.obj.contentType with
      | none => noopOutcome w.bucketState
      | some contentType =>
        if !(strStartsWith contentType "image/") then noopOutcome w.bucketState
        else
          let uri := "gs://" ++ w.obj.bucket ++ "/" ++ filePath
          let isDetected := imageSafeSearchDetection w.visionResult
          if isDetected then
            replaceWithPlaceholder w.bucketState filePath
              REPLACEMENT_IMAGE_FILE_PATH [Effect.classifyImage uri]
          else
            ⟨[Effect.classifyImage uri], w.bucketState, [], Except.ok ()⟩

/-- Inputs of one `transcodeVideo` invocation: the trigger object, the
clock value `Date.now()` reads, the awaited video-intelligence result,
the bucket contents, the three Cloudflare configuration values, and the
signing function the storage client uses for `getSignedUrl`. -/
structure VideoWorld where
  obj : StorageObjectMeta
  now : Nat
  videoResult : VideoOperationResult
  bucketState : List (String × Bytes)
  cloudflareBaseURL : String
  cloudflareAccountId : String
  cloudflareApiToken : String
  sign : String → Nat → String

/-- `transcodeVideo` (index.ts lines 58-148).  Same guard shape with
"video/"; the flagged branch is the shared replacement block with the
video placeholder; the clean branch signs a 1-hour read URL and POSTs it
with metadata to the Cloudflare stream/copy endpoint. -/
def transcodeVideoRun (w : VideoWorld) : Outcome :=
  match w.obj.name with
  | none => noopOutcome w.bucketState
  | some filePath =>
    if filePath == "" then noopOutcome w.bucketState
    else
      match w.obj.contentType with
      | none => noopOutcome w.bucketState
      | some contentType =>
        if !(strStartsWith contentType "video/") then noopOutcome w.bucketState
        else
          let uri := "gs://" ++ w.obj.bucket ++ "/" ++ filePath
          match videoSafeSearchDetection w.videoResult with
          | Except.error e =>
            -- the awaited detection threw; the catch block re-throws.
            ⟨[Effect.classifyVideo uri], w.bucketState, [], Except.error e⟩
          | Except.ok isAdult =>
            if isAdult then
              replaceWithPlaceholder w.bucketState filePath
                REPLACEMENT_VIDEO_FILE_PATH [Effect.classifyVideo uri]
            else
              let baseName := jsBasename filePath (jsExtname filePath)
              let extName := jsExtname filePath
              let fileName := baseName ++ extName
              let expires := w.now + 1000 * 60 * 60
              let downloadURL := w.sign filePath expires
              let url := w.cloudflareBaseURL ++ "/" ++ w.cloudflareAccountId
                ++ "/stream/copy"
              let auth := "Bearer " ++ w.cloudflareApiToken
              ⟨[Effect.classifyVideo uri,
                Effect.getSignedUrl filePath "read" expires,
                Effect.httpPost url auth
                  ⟨downloadURL, ⟨fileName, filePath, downloadURL, filePath⟩⟩],
               w.bucketState, [], Except.ok ()⟩

/-- The clean-branch outcome of `transcodeVideo`, spelled out: sign a
1-hour read URL for the object and POST it with metadata to the
Cloudflare stream/copy endpoint.  Definitionally equal to the handler's
else branch. -/
def transcodeOutcome (w : VideoWorld) (fp : String) : Outcome :=
  ⟨[Effect.classifyVideo ("gs://" ++ w.obj.bucket ++ "/" ++ fp),
    Effect.getSignedUrl fp "read" (w.now + 1000 * 60 * 60),
    Effect.httpPost
      (w.cloudflareBaseURL ++ "/" ++ w.cloudflareAccountId ++ "/stream/copy")
      ("Bearer " ++ w.cloudflareApiToken)
      ⟨w.sign fp (w.now + 1000 * 60 * 60),
       ⟨jsBasename fp (jsExtname fp) ++ jsExtname fp, fp,
        w.sign fp (w.now + 1000 * 60 * 60), fp⟩⟩],
   w.bucketState, [], Except.ok ()⟩

/-! ## Trace and likelihood predicates used by the statements -/

/-- Whether a trace contains a `deleteObject` effect. -/
def hasDeleteEffect (tr : List Effect) : Bool :=
  tr.any fun e =>
    match e with
    | Effect.deleteObject _ => true
    | _ => false

/-- Whether a trace contains an `unlinkFile` effect. -/
def hasUnlinkEffect (tr : List Effect) : Bool :=
  tr.any fun e =>
    match e with
    | Effect.unlinkFile _ => true
    | _ => false

/-- Whether a trace contains an `httpPost` effect. -/
def hasPostEffect (tr : List Effect) : Bool :=
  tr.any fun e =>
    match e with
    | Effect.httpPost _ _ _ => true
    | _ => false

/-- Whether an effect mutates the bucket object at path `p`
(deletes it or uploads over it; downloads only read). -/
def mutatesPath (p : String) (e : Effect) : Bool :=
  match e with
  | Effect.deleteObject q => q == p
  | Effect.uploadObject _ q => q == p
  | _ => false

/-- Whether an effect is a storage mutation (delete or upload). -/
def isMutationEffect (e : Effect) : Bool :=
  match e with
  | Effect.deleteObject _ => true
  | Effect.uploadObject _ _ => true
  | _ => false

/-- The spec's flag test on one likelihood value: POSSIBLE, LIKELY or
VERY_LIKELY. -/
def likFlagged (x : Option String) : Bool :=
  x == some "POSSIBLE" || x == some "LIKELY" || x == some "VERY_LIKELY"

/-- The spec's non-flagging likelihood values: UNKNOWN, VERY_UNLIKELY,
UNLIKELY. -/
def likLow (x : Option String) : Bool :=
  x == some "UNKNOWN" || x == some "VERY_UNLIKELY" || x == some "UNLIKELY"

/-- The guard both handlers run before any outward call, parameterized by
the required content-type marker: `!filePath` (absent or empty) or
`!contentType?.startsWith(marker)` mean no-op. -/
def guardRejects (marker : String) (o : StorageObjectMeta) : Bool :=
  match o.name with
  | none => true
  | some fp =>
    fp == "" ||
      (match o.contentType with
       | none => true
       | some ct => !(strStartsWith ct marker))

/-! ## Concrete inputs used by counterexamples and witnesses -/

/-- A frame list whose FIRST frame is POSSIBLE but whose last frame is
UNLIKELY: any-frame flagging says flagged, the code's overwriting loop
says not. -/
def c1Frames : List ExplicitFrame := [⟨some 3⟩, ⟨some 2⟩]

/-- Video response carrying `c1Frames`. -/
def c1VideoResult : VideoOperationResult :=
  ⟨some [⟨some ⟨some c1Frames⟩⟩]⟩

/-- A video world whose classifier response has a present-but-empty
`annotationResults` array. -/
def c4World : VideoWorld :=
  { obj := ⟨"bkt", some "publishes/s/p/v.mp4", some "video/mp4"⟩
    now := 0
    videoResult := ⟨some []⟩
    bucketState := [("publishes/s/p/v.mp4", 1), ("annotate.mp4", 2)]
    cloudflareBaseURL := "https://api.cloudflare.com/client/v4/accounts"
    cloudflareAccountId := "acct"
    cloudflareApiToken := "tok"
    sign := fun p _ => p }

/-- A video world whose classifier response is wholly absent
(`annotationResults` undefined). -/
def c4CleanWorld : VideoWorld :=
  { obj := ⟨"bkt", some "publishes/s/p/v.mp4", some "video/mp4"⟩
    now := 50
    videoResult := ⟨none⟩
    bucketState := [("publishes/s/p/v.mp4", 1), ("annotate.mp4", 2)]
    cloudflareBaseURL := "https://api.cloudflare.com/client/v4/accounts"
    cloudflareAccountId := "acct"
    cloudflareApiToken := "tok"
    sign := fun p _ => p }

/-- A flagged image world (adult LIKELY) with object and placeholder both
present. -/
def c5ImageWorld : ImageWorld :=
  { obj := ⟨"bkt", some "publishes/s/p/img.png", some "image/png"⟩
    visionResult := ⟨some ⟨some "LIKELY", some "UNKNOWN"⟩⟩
    bucketState := [("publishes/s/p/img.png", 5), ("prohibited.png", 6)] }

/-- A flagged video world (single VERY_LIKELY frame) with object and
placeholder both present. -/
def c5VideoWorld : VideoWorld :=
  { obj := ⟨"bkt", some "publishes/s/p/v.mp4", some "video/mp4"⟩
    now := 0
    videoResult := ⟨some [⟨some ⟨some [⟨some 5⟩]⟩⟩]⟩
    bucketState := [("publishes/s/p/v.mp4", 7), ("annotate.mp4", 8)]
    cloudflareBaseURL := "https://api.cloudflare.com/client/v4/accounts"
    cloudflareAccountId := "acct"
    cloudflareApiToken := "tok"
    sign := fun p _ => p }

/-- A flagged image world whose bucket LACKS the placeholder, so the
placeholder download fails after the delete. -/
def c6World : ImageWorld :=
  { obj := ⟨"bkt", some "publishes/s/p/img.png", some "image/png"⟩
    visionResult := ⟨some ⟨some "LIKELY", some "UNKNOWN"⟩⟩
    bucketState := [("publishes/s/p/img.png", 5)] }

/-- A clean (not-flagged) video world for the transcode branch. -/
def c7World : VideoWorld :=
  { obj := ⟨"bkt", some "publishes/s/p/v.mp4", some "video/mp4"⟩
    now := 1700000000000
    videoResult := ⟨some [⟨some ⟨some [⟨some 1⟩]⟩⟩]⟩
    bucketState := [("publishes/s/p/v.mp4", 7), ("annotate.mp4", 8)]
    cloudflareBaseURL := "https://api.cloudflare.com/client/v4/accounts"
    cloudflareAccountId := "acct"
    cloudflareApiToken := "tok"
    sign := fun p e => p ++ "?sig&exp=" ++ toString e }

/-- A flagged video event arriving AT the video placeholder path itself. -/
def c8World : VideoWorld :=
  { obj := ⟨"bkt", some "annotate.mp4", some "video/mp4"⟩
    now := 0
    videoResult := ⟨some [⟨some ⟨some [⟨some 5⟩]⟩⟩]⟩
    bucketState := [("annotate.mp4", 9)]
    cloudflareBaseURL := "https://api.cloudflare.com/client/v4/accounts"
    cloudflareAccountId := "acct"
    cloudflareApiToken := "tok"
    sign := fun p _ => p }

/-- An image world whose classifier reports only non-flagging
likelihoods (adult UNLIKELY, violence VERY_UNLIKELY). -/
def c2LowWorld : ImageWorld :=
  { obj := ⟨"bkt", some "publishes/s/p/img.png", some "image/png"⟩
    visionResult := ⟨some ⟨some "UNLIKELY", some "VERY_UNLIKELY"⟩⟩
    bucketState := [("publishes/s/p/img.png", 5), ("prohibited.png", 6)] }

/-- An image world rejected by the guard (content type is video). -/
def c3ImageWorld : ImageWorld :=
  { obj := ⟨"bkt", some "publishes/s/p/v.mp4", some "video/mp4"⟩
    visionResult := ⟨some ⟨some "LIKELY", some "LIKELY"⟩⟩
    bucketState := [("publishes/s/p/v.mp4", 5)] }

/-- A video world rejected by the guard (no object path). -/
def c3VideoWorld : VideoWorld :=
  { obj := ⟨"bkt", none, some "video/mp4"⟩
    now := 0
    videoResult := ⟨some [⟨some ⟨some [⟨some 5⟩]⟩⟩]⟩
    bucketState := [("annotate.mp4", 9)]
    cloudflareBaseURL := "https://api.cloudflare.com/client/v4/accounts"
    cloudflareAccountId := "acct"
    cloudflareApiToken := "tok"
    sign := fun p _ => p }

/-! ## Association-list lemmas -/

theorem lookupA_delA_ne (l : List (String × Bytes)) (k q : String)
    (h : k ≠ q) : lookupA (delA l k) q = lookupA l q := by
  induction l with
  | nil => rfl
  | cons p rest ih =>
    obtain ⟨a, b⟩ := p
    by_cases hak : a = k
    · subst hak
      have haq : (a == q) = false := by simp [h]
      simp [delA, lookupA, haq, ih]
    · simp [delA, lookupA, hak, ih]

theorem lookupA_setA_self (l : List (String × Bytes)) (k : String)
    (v : Bytes) : lookupA (setA l k v) k = some v := by
  simp [setA, lookupA]

theorem lookupA_setA_ne (l : List (String × Bytes)) (k q : String)
    (v : Bytes) (h : k ≠ q) : lookupA (setA l k v) q = lookupA l q := by
  have hkq : (k == q) = false := by simp [h]
  simp [setA, lookupA, hkq, lookupA_delA_ne l k q h]

theorem delA_setA_nil (k : String) (v : Bytes) :
    delA (setA [] k v) k = [] := by
  simp [setA, delA]

/-! ## Branch lemmas for the handlers -/

/-- A rejected guard makes `processImages` a no-op. -/
theorem processImagesRun_reject (w : ImageWorld)
    (h : guardRejects "image/" w.obj = true) :
    processImagesRun w = noopOutcome w.bucketState := by
  unfold processImagesRun
  unfold guardRejects at h
  cases hn : w.obj.name with
  | none => simp
  | some fp =>
    rw [hn] at h
    by_cases hfp : fp = ""
    · subst hfp; simp
    · cases hct : w.obj.contentType with
      | none => simp [hfp]
      | some ct =>
        rw [hct] at h
        simp only [Bool.or_eq_true, beq_iff_eq] at h
        rcases h with h | h
        · exact absurd h hfp
        · simp [hfp, h]

/-- A rejected guard makes `transcodeVideo` a no-op. -/
theorem transcodeVideoRun_reject (w : VideoWorld)
    (h : guardRejects "video/" w.obj = true) :
    transcodeVideoRun w = noopOutcome w.bucketState := by
  unfold transcodeVideoRun
  unfold guardRejects at h
  cases hn : w.obj.name with
  | none => simp
  | some fp =>
    rw [hn] at h
    by_cases hfp : fp = ""
    · subst hfp; simp
    · cases hct : w.obj.contentType with
      | none => simp [hfp]
      | some ct =>
        rw [hct] at h
        simp only [Bool.or_eq_true, beq_iff_eq] at h
        rcases h with h | h
        · exact absurd h hfp
        · simp [hfp, h]

/-- A passed guard reduces `processImages` to the classify-then-branch
shape. -/
theorem processImagesRun_pass (w : ImageWorld) (fp ct : String)
    (hn : w.obj.name = some fp) (hne : fp ≠ "")
    (hct : w.obj.contentType = some ct)
    (hcts : strStartsWith ct "image/" = true) :
    processImagesRun w =
      if imageSafeSearchDetection w.visionResult then
        replaceWithPlaceholder w.bucketState fp REPLACEMENT_IMAGE_FILE_PATH
          [Effect.classifyImage ("gs://" ++ w.obj.bucket ++ "/" ++ fp)]
      else
        ⟨[Effect.classifyImage ("gs://" ++ w.obj.bucket ++ "/" ++ fp)],
         w.bucketState, [], Except.ok ()⟩ := by
  unfold processImagesRun
  rw [hn]
  simp [hne, hct, hcts]

/-- A passed guard reduces `transcodeVideo` to the classify-then-branch
shape. -/
theorem transcodeVideoRun_pass (w : VideoWorld) (fp ct : String)
    (hn : w.obj.name = some fp) (hne : fp ≠ "")
    (hct : w.obj.contentType = some ct)
    (hcts : strStartsWith ct "video/" = true) :
    transcodeVideoRun w =
      match videoSafeSearchDetection w.videoResult with
      | Except.error e =>
        ⟨[Effect.classifyVideo ("gs://" ++ w.obj.bucket ++ "/" ++ fp)],
         w.bucketState, [], Except.error e⟩
      | Except.ok isAdult =>
        if isAdult then
          replaceWithPlaceholder w.bucketState fp REPLACEMENT_VIDEO_FILE_PATH
            [Effect.classifyVideo ("gs://" ++ w.obj.bucket ++ "/" ++ fp)]
        else transcodeOutcome w fp := by
  unfold transcodeVideoRun transcodeOutcome
  rw [hn]
  simp [hne, hct, hcts]

/-- The flagged branch with object and placeholder both available runs
to completion: full effect sequence, placeholder bytes written back to
the object path, temp file gone. -/
theorem replaceWithPlaceholder_ok (bucket : List (String × Bytes))
    (fp replPath : String) (t0 : List Effect) (b0 pb : Bytes)
    (hobj : lookupA bucket fp = some b0)
    (hrepl : lookupA (delA bucket fp) replPath = some pb) :
    replaceWithPlaceholder bucket fp replPath t0 =
      ⟨t0 ++ [Effect.deleteObject fp,
              Effect.mkdir (jsDirname (joinPath tmpdir fp)),
              Effect.downloadObject replPath (joinPath tmpdir fp),
              Effect.uploadObject (joinPath tmpdir fp) fp,
              Effect.unlinkFile (joinPath tmpdir fp)],
       setA (delA bucket fp) fp pb, [], Except.ok ()⟩ := by
  unfold replaceWithPlaceholder
  rw [hobj]
  simp [hrepl, delA_setA_nil]

/-- The flagged branch never POSTs. -/
theorem replaceWithPlaceholder_no_post (bucket : List (String × Bytes))
    (fp replPath : String) (t0 : List Effect)
    (h : hasPostEffect t0 = false) :
    hasPostEffect (replaceWithPlaceholder bucket fp replPath t0).trace
      = false := by
  unfold replaceWithPlaceholder
  cases h1 : lookupA bucket fp with
  | none => simp [hasPostEffect, List.any_append] at h ⊢; exact h
  | some b0 =>
    cases h2 : lookupA (delA bucket fp) replPath with
    | none => simp [h2, hasPostEffect, List.any_append] at h ⊢; exact h
    | some pb => simp [h2, hasPostEffect, List.any_append] at h ⊢; exact h

/-- The flagged branch only ever deletes or uploads at the event path. -/
theorem replaceWithPlaceholder_mutates_ne (bucket : List (String × Bytes))
    (fp replPath p : String) (t0 : List Effect)
    (hfp : fp ≠ p) (ht0 : t0.any (mutatesPath p) = false) :
    (replaceWithPlaceholder bucket fp replPath t0).trace.any (mutatesPath p)
      = false := by
  have hb : (fp == p) = false := by simp [hfp]
  unfold replaceWithPlaceholder
  cases h1 : lookupA bucket fp with
  | none => simp [List.any_append, ht0, mutatesPath, hb]
  | some b0 =>
    cases h2 : lookupA (delA bucket fp) replPath with
    | none => simp [h2, List.any_append, ht0, mutatesPath, hb]
    | some pb => simp [h2, List.any_append, ht0, mutatesPath, hb]

/-- If the flagged branch completed (returned null), it unlinked the temp
file. -/
theorem replaceWithPlaceholder_ok_unlink (bucket : List (String × Bytes))
    (fp replPath : String) (t0 : List Effect)
    (hok : (replaceWithPlaceholder bucket fp replPath t0).result
      = Except.ok ()) :
    hasUnlinkEffect (replaceWithPlaceholder bucket fp replPath t0).trace
      = true := by
  unfold replaceWithPlaceholder at hok ⊢
  cases h1 : lookupA bucket fp with
  | none => simp [h1] at hok
  | some b0 =>
    cases h2 : lookupA (delA bucket fp) replPath with
    | none => simp [h1, h2] at hok
    | some pb => simp [h1, h2, hasUnlinkEffect, List.any_append]

/-- A not-flagged classification leaves the image trace without any
delete. -/
theorem processImagesRun_not_flagged (w : ImageWorld)
    (h : imageSafeSearchDetection w.visionResult = false) :
    hasDeleteEffect (processImagesRun w).trace = false := by
  unfold processImagesRun
  cases hn : w.obj.name with
  | none => simp [noopOutcome, hasDeleteEffect]
  | some fp =>
    by_cases hfp : fp = ""
    · subst hfp; simp [noopOutcome, hasDeleteEffect]
    · cases hct : w.obj.contentType with
      | none => simp [hfp, noopOutcome, hasDeleteEffect]
      | some ct =>
        by_cases hs : strStartsWith ct "image/" = true
        · simp [hfp, hs, h, hasDeleteEffect]
        · simp [hfp, Bool.of_not_eq_true hs, noopOutcome, hasDeleteEffect]

/-- Two low likelihood values never satisfy the flag disjunction. -/
theorem low_pair_not_flagged (x y : Option String)
    (hx : likLow x = true) (hy : likLow y = true) :
    ((x == some "POSSIBLE" || x == some "LIKELY" || x == some "VERY_LIKELY") ||
     (y == some "POSSIBLE" || y == some "LIKELY" || y == some "VERY_LIKELY"))
      = false := by
  unfold likLow at hx hy
  simp only [Bool.or_eq_true, beq_iff_eq] at hx hy
  rcases hx with ((h | h) | h) <;> rcases hy with ((h2 | h2) | h2) <;>
    subst h <;> subst h2 <;> decide

/-- Both likelihoods in the non-flagging range force the image detector
to false. -/
theorem imageDetection_false_of_low (r : VisionResult)
    (ha : likLow (r.safeSearchAnn.bind fun d => d.adult) = true)
    (hv : likLow (r.safeSearchAnn.bind fun d => d.violence) = true) :
    imageSafeSearchDetection r = false := by
  unfold imageSafeSearchDetection
  exact low_pair_not_flagged _ _ ha hv

/-- A guard that does not reject yields a path, a non-empty name and a
matching content type. -/
theorem guard_pass_elim (marker : String) (o : StorageObjectMeta)
    (h : guardRejects marker o = false) :
    ∃ fp ct, o.name = some fp ∧ fp ≠ "" ∧ o.contentType = some ct ∧
      strStartsWith ct marker = true := by
  unfold guardRejects at h
  cases hn : o.name with
  | none => rw [hn] at h; simp at h
  | some fp =>
    rw [hn] at h
    cases hct : o.contentType with
    | none => rw [hct] at h; simp at h
    | some ct =>
      rw [hct] at h
      simp only [Bool.or_eq_false_iff, Bool.not_eq_false', beq_eq_false_iff_ne]
        at h
      exact ⟨fp, ct, rfl, h.1, rfl, h.2⟩

/-- No branch of the image handler deletes or overwrites a bucket path
other than the event path. -/
theorem processImagesRun_mutates_ne (w : ImageWorld) (p : String)
    (h : w.obj.name ≠ some p) :
    (processImagesRun w).trace.any (mutatesPath p) = false := by
  rcases Bool.eq_false_or_eq_true (guardRejects "image/" w.obj) with hg | hg
  · rw [processImagesRun_reject w hg]; rfl
  · obtain ⟨fp, ct, hn, hne, hct, hcts⟩ := guard_pass_elim "image/" w.obj hg
    have hfp : fp ≠ p := fun he => h (by rw [hn, he])
    rw [processImagesRun_pass w fp ct hn hne hct hcts]
    cases hdet : imageSafeSearchDetection w.visionResult with
    | true =>
      simp only [if_true]
      exact replaceWithPlaceholder_mutates_ne w.bucketState fp
        REPLACEMENT_IMAGE_FILE_PATH p _ hfp (by simp [mutatesPath])
    | false => simp [mutatesPath]

/-- No branch of the video handler deletes or overwrites a bucket path
other than the event path. -/
theorem transcodeVideoRun_mutates_ne (w : VideoWorld) (p : String)
    (h : w.obj.name ≠ some p) :
    (transcodeVideoRun w).trace.any (mutatesPath p) = false := by
  rcases Bool.eq_false_or_eq_true (guardRejects "video/" w.obj) with hg | hg
  · rw [transcodeVideoRun_reject w hg]; rfl
  · obtain ⟨fp, ct, hn, hne, hct, hcts⟩ := guard_pass_elim "video/" w.obj hg
    have hfp : fp ≠ p := fun he => h (by rw [hn, he])
    rw [transcodeVideoRun_pass w fp ct hn hne hct hcts]
    cases hdet : videoSafeSearchDetection w.videoResult with
    | error e => simp [mutatesPath]
    | ok isAdult =>
      cases isAdult with
      | true =>
        simp only [if_true]
        exact replaceWithPlaceholder_mutates_ne w.bucketState fp
          REPLACEMENT_VIDEO_FILE_PATH p _ hfp (by simp [mutatesPath])
      | false => simp [transcodeOutcome, mutatesPath]

/-! ## Claims -/

/-- C1: the claim says the video handler flags iff AT LEAST ONE frame's
pornography likelihood is POSSIBLE/LIKELY/VERY_LIKELY.  The code's
`forEach` body overwrites `isAdult` on every iteration, so only the LAST
frame decides.  At a response whose first frame is POSSIBLE (3) and whose
last frame is UNLIKELY (2), the code computes `false` although a frame of
the list is flagged — the disjunction-over-frames reading is the clear
intent (and the spec's words), so this is a code bug. -/
theorem c1_last_frame_overwrites_flag :
    videoSafeSearchDetection c1VideoResult = Except.ok false ∧
    c1Frames.any frameIsAdult = true := by
  refine ⟨rfl, by decide⟩

/-- C2: the image handler flags iff the adult or the violence likelihood
is POSSIBLE/LIKELY/VERY_LIKELY; and whenever both categories are
UNKNOWN/VERY_UNLIKELY/UNLIKELY, the trace of the run contains no object
delete. -/
theorem c2_image_flag_iff_and_no_delete (w : ImageWorld) :
    (imageSafeSearchDetection w.visionResult = true ↔
      (likFlagged (w.visionResult.safeSearchAnn.bind fun d => d.adult) = true ∨
       likFlagged (w.visionResult.safeSearchAnn.bind fun d => d.violence)
         = true)) ∧
    (likLow (w.visionResult.safeSearchAnn.bind fun d => d.adult) = true →
      likLow (w.visionResult.safeSearchAnn.bind fun d => d.violence) = true →
      hasDeleteEffect (processImagesRun w).trace = false) := by
  constructor
  · unfold imageSafeSearchDetection likFlagged
    simp [Bool.or_eq_true, or_assoc]
  · intro ha hv
    exact processImagesRun_not_flagged w (imageDetection_false_of_low _ ha hv)

/-- C2 witness: a response with adult UNLIKELY and violence VERY_UNLIKELY
leads to a run without any delete. -/
theorem c2_witness :
    hasDeleteEffect (processImagesRun c2LowWorld).trace = false :=
  (c2_image_flag_iff_and_no_delete c2LowWorld).2 (by decide) (by decide)

/-- C3: an event whose object path is absent or whose content type does
not start with the required marker makes either handler a no-op: empty
trace (no storage mutation, no classifier or HTTP call), bucket
untouched, normal null return. -/
theorem c3_guard_noop (wi : ImageWorld) (wv : VideoWorld)
    (hi : guardRejects "image/" wi.obj = true)
    (hv : guardRejects "video/" wv.obj = true) :
    processImagesRun wi = noopOutcome wi.bucketState ∧
    transcodeVideoRun wv = noopOutcome wv.bucketState :=
  ⟨processImagesRun_reject wi hi, transcodeVideoRun_reject wv hv⟩

/-- C3 witness: an image event with video content type and a video event
without a path are both no-ops. -/
theorem c3_witness :
    processImagesRun c3ImageWorld = noopOutcome c3ImageWorld.bucketState ∧
    transcodeVideoRun c3VideoWorld = noopOutcome c3VideoWorld.bucketState :=
  c3_guard_noop c3ImageWorld c3VideoWorld (by decide) (by decide)

/-- C9: no video invocation both mutates storage (delete or upload) and
POSTs to the transcode endpoint: the replace and transcode branches are
mutually exclusive. -/
theorem c9_branches_exclusive (w : VideoWorld) :
    ((transcodeVideoRun w).trace.any isMutationEffect
      && hasPostEffect (transcodeVideoRun w).trace) = false := by
  rcases Bool.eq_false_or_eq_true (guardRejects "video/" w.obj) with hg | hg
  · rw [transcodeVideoRun_reject w hg]; rfl
  · obtain ⟨fp, ct, hn, hne, hct, hcts⟩ := guard_pass_elim "video/" w.obj hg
    rw [transcodeVideoRun_pass w fp ct hn hne hct hcts]
    cases hdet : videoSafeSearchDetection w.videoResult with
    | error e => simp [isMutationEffect, hasPostEffect]
    | ok isAdult =>
      cases isAdult with
      | true =>
        simp only [if_true]
        have hp := replaceWithPlaceholder_no_post w.bucketState fp
          REPLACEMENT_VIDEO_FILE_PATH
          [Effect.classifyVideo ("gs://" ++ w.obj.bucket ++ "/" ++ fp)]
          (by simp [hasPostEffect])
        simp [hp]
      | false => simp [transcodeOutcome, isMutationEffect]

/-- C10: each handler is a function of the event, the clock, the
classifier response, the storage contents and the configuration: equal
inputs give runs with identical traces, states and results. -/
theorem c10_handlers_deterministic (w1 w2 : ImageWorld) (v1 v2 : VideoWorld)
    (hw : w1 = w2) (hv : v1 = v2) :
    processImagesRun w1 = processImagesRun w2 ∧
    transcodeVideoRun v1 = transcodeVideoRun v2 := by
  subst hw; subst hv; exact ⟨rfl, rfl⟩

/-- C10 witness: two runs on the same concrete worlds agree. -/
theorem c10_witness :
    processImagesRun c5ImageWorld = processImagesRun c5ImageWorld ∧
    transcodeVideoRun c7World = transcodeVideoRun c7World :=
  c10_handlers_deterministic c5ImageWorld c5ImageWorld c7World c7World rfl rfl

/-- C4 counterexample: a response whose `annotationResults` is a
present-but-empty array makes `explicitContentResults[0].explicitAnnotation`
throw, so the invocation ends in an error and no transcode POST happens —
the claim's "treats as not flagged and completes without error" fails on
this response. -/
theorem c4_empty_results_error :
    (transcodeVideoRun c4World).result =
      Except.error "TypeError: cannot read explicitAnn of undefined" ∧
    hasPostEffect (transcodeVideoRun c4World).trace = false := ⟨rfl, rfl⟩

/-- C4 (amended): when `annotationResults` is absent, or the first
annotation result exists and its explicit annotation or frame list is
absent or the frame list is empty, the detector returns `ok false` and
the handler takes the transcode branch, completing normally. -/
theorem c4_default_false_takes_transcode (w : VideoWorld) (fp ct : String)
    (hn : w.obj.name = some fp) (hne : fp ≠ "")
    (hct : w.obj.contentType = some ct)
    (hcts : strStartsWith ct "video/" = true)
    (hres : w.videoResult.annResults = none ∨
      (∃ first rest, w.videoResult.annResults = some (first :: rest) ∧
        (first.explicitAnn = none ∨
          (∃ a, first.explicitAnn = some a ∧
            (a.frames = none ∨ a.frames = some []))))) :
    videoSafeSearchDetection w.videoResult = Except.ok false ∧
    transcodeVideoRun w = transcodeOutcome w fp := by
  have hdet : videoSafeSearchDetection w.videoResult = Except.ok false := by
    unfold videoSafeSearchDetection
    rcases hres with h | ⟨first, rest, h, hf⟩
    · simp [h]
    · rcases hf with hf | ⟨a, ha, hfr⟩
      · simp [h, hf]
      · rcases hfr with hfr | hfr
        · simp [h, ha, hfr]
        · simp [h, ha, hfr]
  refine ⟨hdet, ?_⟩
  rw [transcodeVideoRun_pass w fp ct hn hne hct hcts, hdet]
  rfl

/-- C4 witness: a wholly absent annotation result list yields the
transcode branch. -/
theorem c4_witness :
    videoSafeSearchDetection c4CleanWorld.videoResult = Except.ok false ∧
    transcodeVideoRun c4CleanWorld =
      transcodeOutcome c4CleanWorld "publishes/s/p/v.mp4" :=
  c4_default_false_takes_transcode c4CleanWorld "publishes/s/p/v.mp4"
    "video/mp4" rfl (by decide) rfl (by decide) (Or.inl rfl)

/-- C6 counterexample: a flagged image event whose bucket lacks the
placeholder enters the flagged branch (the delete happens), the
placeholder download fails, the invocation ends in an error — and no
unlink is performed, refuting "released unconditionally, including when a
downstream step fails". -/
theorem c6_failed_download_skips_unlink :
    hasDeleteEffect (processImagesRun c6World).trace = true ∧
    (processImagesRun c6World).result =
      Except.error "download: no such object" ∧
    hasUnlinkEffect (processImagesRun c6World).trace = false := ⟨rfl, rfl, rfl⟩

/-- C6 (amended): in every execution of the flagged branch of either
handler that completes normally, the temp file is unlinked. -/
theorem c6_success_path_unlinks (wi : ImageWorld) (wv : VideoWorld)
    (fpI ctI fpV ctV : String)
    (hnI : wi.obj.name = some fpI) (hneI : fpI ≠ "")
    (hctI : wi.obj.contentType = some ctI)
    (hctsI : strStartsWith ctI "image/" = true)
    (hdetI : imageSafeSearchDetection wi.visionResult = true)
    (hokI : (processImagesRun wi).result = Except.ok ())
    (hnV : wv.obj.name = some fpV) (hneV : fpV ≠ "")
    (hctV : wv.obj.contentType = some ctV)
    (hctsV : strStartsWith ctV "video/" = true)
    (hdetV : videoSafeSearchDetection wv.videoResult = Except.ok true)
    (hokV : (transcodeVideoRun wv).result = Except.ok ()) :
    hasUnlinkEffect (processImagesRun wi).trace = true ∧
    hasUnlinkEffect (transcodeVideoRun wv).trace = true := by
  have hri := processImagesRun_pass wi fpI ctI hnI hneI hctI hctsI
  rw [hri, hdetI] at hokI
  rw [hri, hdetI]
  simp only [if_true] at hokI ⊢
  have hrv := transcodeVideoRun_pass wv fpV ctV hnV hneV hctV hctsV
  rw [hrv, hdetV] at hokV
  rw [hrv, hdetV]
  simp only [if_true] at hokV ⊢
  exact ⟨replaceWithPlaceholder_ok_unlink _ _ _ _ hokI,
         replaceWithPlaceholder_ok_unlink _ _ _ _ hokV⟩

/-- C6 witness: flagged image and video events with object and
placeholder present complete normally and unlink their temp files. -/
theorem c6_witness :
    hasUnlinkEffect (processImagesRun c5ImageWorld).trace = true ∧
    hasUnlinkEffect (transcodeVideoRun c5VideoWorld).trace = true :=
  c6_success_path_unlinks c5ImageWorld c5VideoWorld
    "publishes/s/p/img.png" "image/png" "publishes/s/p/v.mp4" "video/mp4"
    rfl (by decide) rfl (by decide) rfl rfl
    rfl (by decide) rfl (by decide) rfl rfl

/-- C7: a guard-passing, not-flagged video event signs a read URL expiring
one hour (3 600 000 ms) after the current clock and issues exactly one
POST to {base}/{account}/stream/copy with Authorization "Bearer {token}"
and body { url, meta { name, path, contentURI, contentRef } } where
meta.path is the original object path; the bucket is untouched and the
trace holds no delete, download or upload. -/
theorem c7_clean_branch_posts (w : VideoWorld) (fp ct : String)
    (hn : w.obj.name = some fp) (hne : fp ≠ "")
    (hct : w.obj.contentType = some ct)
    (hcts : strStartsWith ct "video/" = true)
    (hdet : videoSafeSearchDetection w.videoResult = Except.ok false) :
    transcodeVideoRun w =
      ⟨[Effect.classifyVideo ("gs://" ++ w.obj.bucket ++ "/" ++ fp),
        Effect.getSignedUrl fp "read" (w.now + 1000 * 60 * 60),
        Effect.httpPost
          (w.cloudflareBaseURL ++ "/" ++ w.cloudflareAccountId
            ++ "/stream/copy")
          ("Bearer " ++ w.cloudflareApiToken)
          ⟨w.sign fp (w.now + 1000 * 60 * 60),
           ⟨jsBasename fp (jsExtname fp) ++ jsExtname fp, fp,
            w.sign fp (w.now + 1000 * 60 * 60), fp⟩⟩],
       w.bucketState, [], Except.ok ()⟩ := by
  rw [transcodeVideoRun_pass w fp ct hn hne hct hcts, hdet]
  rfl

/-- C7 witness: the clean branch at a concrete world. -/
theorem c7_witness :
    transcodeVideoRun c7World =
      ⟨[Effect.classifyVideo ("gs://" ++ c7World.obj.bucket ++ "/"
          ++ "publishes/s/p/v.mp4"),
        Effect.getSignedUrl "publishes/s/p/v.mp4" "read"
          (c7World.now + 1000 * 60 * 60),
        Effect.httpPost
          (c7World.cloudflareBaseURL ++ "/" ++ c7World.cloudflareAccountId
            ++ "/stream/copy")
          ("Bearer " ++ c7World.cloudflareApiToken)
          ⟨c7World.sign "publishes/s/p/v.mp4" (c7World.now + 1000 * 60 * 60),
           ⟨jsBasename "publishes/s/p/v.mp4" (jsExtname "publishes/s/p/v.mp4")
              ++ jsExtname "publishes/s/p/v.mp4", "publishes/s/p/v.mp4",
            c7World.sign "publishes/s/p/v.mp4" (c7World.now + 1000 * 60 * 60),
            "publishes/s/p/v.mp4"⟩⟩],
       c7World.bucketState, [], Except.ok ()⟩ :=
  c7_clean_branch_posts c7World "publishes/s/p/v.mp4" "video/mp4"
    rfl (by decide) rfl (by decide) rfl

/-- C5: a guard-passing flagged event (image or video) whose object and
placeholder both exist (and whose path is not the placeholder path) runs
exactly the sequence classify, delete object, make temp dir, download
placeholder to the temp file, upload it back to the event path, unlink
the temp file; afterwards the event path holds exactly the placeholder's
bytes, no other path changed, and no temp file remains. -/
theorem c5_flagged_replacement (wi : ImageWorld) (wv : VideoWorld)
    (fpI ctI fpV ctV : String) (bI pbI bV pbV : Bytes)
    (hnI : wi.obj.name = some fpI) (hneI : fpI ≠ "")
    (hctI : wi.obj.contentType = some ctI)
    (hctsI : strStartsWith ctI "image/" = true)
    (hdetI : imageSafeSearchDetection wi.visionResult = true)
    (hobjI : lookupA wi.bucketState fpI = some bI)
    (hneqI : fpI ≠ REPLACEMENT_IMAGE_FILE_PATH)
    (hreplI : lookupA wi.bucketState REPLACEMENT_IMAGE_FILE_PATH = some pbI)
    (hnV : wv.obj.name = some fpV) (hneV : fpV ≠ "")
    (hctV : wv.obj.contentType = some ctV)
    (hctsV : strStartsWith ctV "video/" = true)
    (hdetV : videoSafeSearchDetection wv.videoResult = Except.ok true)
    (hobjV : lookupA wv.bucketState fpV = some bV)
    (hneqV : fpV ≠ REPLACEMENT_VIDEO_FILE_PATH)
    (hreplV : lookupA wv.bucketState REPLACEMENT_VIDEO_FILE_PATH
      = some pbV) :
    (processImagesRun wi =
        ⟨[Effect.classifyImage ("gs://" ++ wi.obj.bucket ++ "/" ++ fpI),
          Effect.deleteObject fpI,
          Effect.mkdir (jsDirname (joinPath tmpdir fpI)),
          Effect.downloadObject REPLACEMENT_IMAGE_FILE_PATH
            (joinPath tmpdir fpI),
          Effect.uploadObject (joinPath tmpdir fpI) fpI,
          Effect.unlinkFile (joinPath tmpdir fpI)],
         setA (delA wi.bucketState fpI) fpI pbI, [], Except.ok ()⟩ ∧
      lookupA (processImagesRun wi).bucket fpI = some pbI ∧
      (∀ q, q ≠ fpI →
        lookupA (processImagesRun wi).bucket q = lookupA wi.bucketState q)) ∧
    (transcodeVideoRun wv =
        ⟨[Effect.classifyVideo ("gs://" ++ wv.obj.bucket ++ "/" ++ fpV),
          Effect.deleteObject fpV,
          Effect.mkdir (jsDirname (joinPath tmpdir fpV)),
          Effect.downloadObject REPLACEMENT_VIDEO_FILE_PATH
            (joinPath tmpdir fpV),
          Effect.uploadObject (joinPath tmpdir fpV) fpV,
          Effect.unlinkFile (joinPath tmpdir fpV)],
         setA (delA wv.bucketState fpV) fpV pbV, [], Except.ok ()⟩ ∧
      lookupA (transcodeVideoRun wv).bucket fpV = some pbV ∧
      (∀ q, q ≠ fpV →
        lookupA (transcodeVideoRun wv).bucket q
          = lookupA wv.bucketState q)) := by
  have hreplI2 : lookupA (delA wi.bucketState fpI)
      REPLACEMENT_IMAGE_FILE_PATH = some pbI := by
    rw [lookupA_delA_ne _ _ _ hneqI]; exact hreplI
  have hreplV2 : lookupA (delA wv.bucketState fpV)
      REPLACEMENT_VIDEO_FILE_PATH = some pbV := by
    rw [lookupA_delA_ne _ _ _ hneqV]; exact hreplV
  have hrunI : processImagesRun wi =
      replaceWithPlaceholder wi.bucketState fpI REPLACEMENT_IMAGE_FILE_PATH
        [Effect.classifyImage ("gs://" ++ wi.obj.bucket ++ "/" ++ fpI)] := by
    rw [processImagesRun_pass wi fpI ctI hnI hneI hctI hctsI, hdetI]
    rfl
  have hrunV : transcodeVideoRun wv =
      replaceWithPlaceholder wv.bucketState fpV REPLACEMENT_VIDEO_FILE_PATH
        [Effect.classifyVideo ("gs://" ++ wv.obj.bucket ++ "/" ++ fpV)] := by
    rw [transcodeVideoRun_pass wv fpV ctV hnV hneV hctV hctsV, hdetV]
    rfl
  have houtI : processImagesRun wi =
      ⟨[Effect.classifyImage ("gs://" ++ wi.obj.bucket ++ "/" ++ fpI),
        Effect.deleteObject fpI,
        Effect.mkdir (jsDirname (joinPath tmpdir fpI)),
        Effect.downloadObject REPLACEMENT_IMAGE_FILE_PATH
          (joinPath tmpdir fpI),
        Effect.uploadObject (joinPath tmpdir fpI) fpI,
        Effect.unlinkFile (joinPath tmpdir fpI)],
       setA (delA wi.bucketState fpI) fpI pbI, [], Except.ok ()⟩ := by
    rw [hrunI]
    exact replaceWithPlaceholder_ok wi.bucketState fpI
      REPLACEMENT_IMAGE_FILE_PATH _ bI pbI hobjI hreplI2
  have houtV : transcodeVideoRun wv =
      ⟨[Effect.classifyVideo ("gs://" ++ wv.obj.bucket ++ "/" ++ fpV),
        Effect.deleteObject fpV,
        Effect.mkdir (jsDirname (joinPath tmpdir fpV)),
        Effect.downloadObject REPLACEMENT_VIDEO_FILE_PATH
          (joinPath tmpdir fpV),
        Effect.uploadObject (joinPath tmpdir fpV) fpV,
        Effect.unlinkFile (joinPath tmpdir fpV)],
       setA (delA wv.bucketState fpV) fpV pbV, [], Except.ok ()⟩ := by
    rw [hrunV]
    exact replaceWithPlaceholder_ok wv.bucketState fpV
      REPLACEMENT_VIDEO_FILE_PATH _ bV pbV hobjV hreplV2
  refine ⟨⟨houtI, ?_, ?_⟩, houtV, ?_, ?_⟩
  · rw [houtI]
    exact lookupA_setA_self _ _ _
  · intro q hq
    rw [houtI]
    show lookupA (setA (delA wi.bucketState fpI) fpI pbI) q
      = lookupA wi.bucketState q
    rw [lookupA_setA_ne _ _ _ _ (Ne.symm hq), lookupA_delA_ne _ _ _
      (Ne.symm hq)]
  · rw [houtV]
    exact lookupA_setA_self _ _ _
  · intro q hq
    rw [houtV]
    show lookupA (setA (delA wv.bucketState fpV) fpV pbV) q
      = lookupA wv.bucketState q
    rw [lookupA_setA_ne _ _ _ _ (Ne.symm hq), lookupA_delA_ne _ _ _
      (Ne.symm hq)]

/-- C5 witness: the replacement sequence at concrete flagged image and
video events, with the placeholder paths left untouched. -/
theorem c5_witness :
    (processImagesRun c5ImageWorld =
      ⟨[Effect.classifyImage ("gs://" ++ c5ImageWorld.obj.bucket ++ "/"
          ++ "publishes/s/p/img.png"),
        Effect.deleteObject "publishes/s/p/img.png",
        Effect.mkdir (jsDirname (joinPath tmpdir "publishes/s/p/img.png")),
        Effect.downloadObject REPLACEMENT_IMAGE_FILE_PATH
          (joinPath tmpdir "publishes/s/p/img.png"),
        Effect.uploadObject (joinPath tmpdir "publishes/s/p/img.png")
          "publishes/s/p/img.png",
        Effect.unlinkFile (joinPath tmpdir "publishes/s/p/img.png")],
       setA (delA c5ImageWorld.bucketState "publishes/s/p/img.png")
         "publishes/s/p/img.png" 6, [], Except.ok ()⟩) ∧
    lookupA (processImagesRun c5ImageWorld).bucket "publishes/s/p/img.png"
      = some 6 ∧
    lookupA (processImagesRun c5ImageWorld).bucket "prohibited.png"
      = lookupA c5ImageWorld.bucketState "prohibited.png" ∧
    lookupA (transcodeVideoRun c5VideoWorld).bucket "publishes/s/p/v.mp4"
      = some 8 ∧
    lookupA (transcodeVideoRun c5VideoWorld).bucket "annotate.mp4"
      = lookupA c5VideoWorld.bucketState "annotate.mp4" := by
  have T := c5_flagged_replacement c5ImageWorld c5VideoWorld
    "publishes/s/p/img.png" "image/png" "publishes/s/p/v.mp4" "video/mp4"
    5 6 7 8
    rfl (by decide) rfl (by decide) rfl rfl (by decide) rfl
    rfl (by decide) rfl (by decide) rfl rfl (by decide) rfl
  exact ⟨T.1.1, T.1.2.1, T.1.2.2 "prohibited.png" (by decide),
         T.2.2.1, T.2.2.2 "annotate.mp4" (by decide)⟩

/-- C8 counterexample: a flagged video event whose own path IS the video
placeholder path makes the handler delete the placeholder object,
refuting "never deleted or overwritten — including events whose own
object path equals a placeholder path". -/
theorem c8_placeholder_event_deletes_placeholder :
    Effect.deleteObject REPLACEMENT_VIDEO_FILE_PATH ∈
      (transcodeVideoRun c8World).trace := by decide

/-- C8 (amended): for every event whose object path differs from the two
placeholder paths, neither handler ever deletes or uploads over either
placeholder path — the placeholders are only read. -/
theorem c8_placeholders_read_only (wi : ImageWorld) (wv : VideoWorld)
    (hi1 : wi.obj.name ≠ some REPLACEMENT_IMAGE_FILE_PATH)
    (hi2 : wi.obj.name ≠ some REPLACEMENT_VIDEO_FILE_PATH)
    (hv1 : wv.obj.name ≠ some REPLACEMENT_IMAGE_FILE_PATH)
    (hv2 : wv.obj.name ≠ some REPLACEMENT_VIDEO_FILE_PATH) :
    (processImagesRun wi).trace.any
      (mutatesPath REPLACEMENT_IMAGE_FILE_PATH) = false ∧
    (processImagesRun wi).trace.any
      (mutatesPath REPLACEMENT_VIDEO_FILE_PATH) = false ∧
    (transcodeVideoRun wv).trace.any
      (mutatesPath REPLACEMENT_IMAGE_FILE_PATH) = false ∧
    (transcodeVideoRun wv).trace.any
      (mutatesPath REPLACEMENT_VIDEO_FILE_PATH) = false :=
  ⟨processImagesRun_mutates_ne wi _ hi1,
   processImagesRun_mutates_ne wi _ hi2,
   transcodeVideoRun_mutates_ne wv _ hv1,
   transcodeVideoRun_mutates_ne wv _ hv2⟩

/-- C8 witness: a flagged image event and a clean video event at ordinary
paths never touch the placeholder paths. -/
theorem c8_witness :
    (processImagesRun c5ImageWorld).trace.any
      (mutatesPath REPLACEMENT_IMAGE_FILE_PATH) = false ∧
    (processImagesRun c5ImageWorld).trace.any
      (mutatesPath REPLACEMENT_VIDEO_FILE_PATH) = false ∧
    (transcodeVideoRun c7World).trace.any
      (mutatesPath REPLACEMENT_IMAGE_FILE_PATH) = false ∧
    (transcodeVideoRun c7World).trace.any
      (mutatesPath REPLACEMENT_VIDEO_FILE_PATH) = false :=
  c8_placeholders_read_only c5ImageWorld c7World
    (by decide) (by decide) (by decide) (by decide)

end DiirService
